import Mathlib

/-!
Shallow embedding of the retry/backoff request engine of `internal/api`
(`GenerateResponse` and its helpers), together with the model-name and
request-URL construction it performs.  The transport layer (`http.Client.Do`),
the body read (`io.ReadAll`) and the JSON decoder (`json.Unmarshal`) are
modelled as an oracle (`Env`) that tells, per attempt index, what the outside
world answered; everything the Go function itself computes from those answers
is embedded faithfully.  Durations are measured in whole seconds (the unit in
which the source computes every backoff: `time.Duration(x) * time.Second`).
-/

namespace HowApi

/-- Go `unicode.IsSpace` restricted to the Latin-1 range (space, tab, newline,
vertical tab, form feed, carriage return, NEL, NBSP).  Every string the engine
trims in the claims is ASCII, where this agrees with Go exactly. -/
def goIsSpace (c : Char) : Bool :=
  c == ' ' || c == '\t' || c == '\n' || c == '\x0b' || c == '\x0c' || c == '\r' ||
    c == '\u0085' || c == '\u00A0'

/-- Go `strings.TrimSpace`: drop leading and trailing whitespace. -/
def goTrimSpace (s : String) : String :=
  ⟨List.rdropWhile goIsSpace (s.data.dropWhile goIsSpace)⟩

/-- Does the character list `l` start with the character list `pat`? -/
def listStartsWith : List Char → List Char → Bool
  | _, [] => true
  | [], _ :: _ => false
  | a :: as, b :: bs => a == b && listStartsWith as bs

/-- Does `pat` occur as a contiguous subsequence of `l`?  (Helper for Go
`strings.Contains`.) -/
def listContainsSeq : List Char → List Char → Bool
  | [], pat => pat.isEmpty
  | a :: as, pat => listStartsWith (a :: as) pat || listContainsSeq as pat

/-- Go `strings.Contains s sub`.  Go works over UTF-8 bytes; for the ASCII
needles used by the engine ("timeout", "deadline exceeded") byte-level and
character-level matching coincide. -/
def goContains (s sub : String) : Bool :=
  listContainsSeq s.data sub.data

/-- Go strings.TrimPrefix applied to `s` and `pat`: if `s` starts with `pat`,
drop that leading occurrence, else return `s` unchanged. -/
def goTrimLeading (s pat : String) : String :=
  if listStartsWith s.data pat.data then ⟨s.data.drop pat.data.length⟩ else s

/-! ### Wire data model (`geminiRequest` / `geminiResponse`) -/

/-- One text part (`part` struct in the source). -/
structure part where
  text : String
deriving DecidableEq, Repr

/-- A content block holding parts (`content` struct). -/
structure content where
  parts : List part
deriving DecidableEq, Repr

/-- One candidate answer (`candidate` struct); `finishReason` and
`safetyRatings` are carried but never consulted by the engine. -/
structure candidate where
  content : content
  finishReason : String
  safetyRatings : List (String × String)
deriving DecidableEq, Repr

/-- Safety feedback on the prompt (`promptFeedback` struct). -/
structure promptFeedback where
  blockReason : String
deriving DecidableEq, Repr

/-- The decoded response body (`geminiResponse` struct). -/
structure geminiResponse where
  candidates : List candidate
  promptFeedback : Option promptFeedback
deriving DecidableEq, Repr

/-- The outbound request body (`geminiRequest` struct). -/
structure geminiRequest where
  contents : List content
deriving DecidableEq, Repr

/-- The request body built once per call from the prompt:
`{"contents": [{"parts": [{"text": prompt}]}]}`. -/
def mkRequestBody (prompt : String) : geminiRequest :=
  ⟨[⟨[⟨prompt⟩]⟩]⟩

/-! ### Model-name resolution and request URL -/

/-- The fixed default model used when `HOW_MODEL` is unset or empty. -/
def defaultModel : String := "gemini-2.5-flash"

/-- Model-name resolution: the `HOW_MODEL` value (empty string meaning unset,
as `os.Getenv` reports), defaulted, then stripped of a leading "models/"
namespace qualifier. -/
def resolveModelName (howModel : String) : String :=
  goTrimLeading (if howModel == "" then defaultModel else howModel) "models/"

/-- The request URL the engine builds with `fmt.Sprintf`. -/
def requestURL (howModel apiKey : String) : String :=
  "https://generativelanguage.googleapis.com/v1beta/models/" ++
    resolveModelName howModel ++ ":generateContent?key=" ++ apiKey

/-! ### Error taxonomy -/

/-- The closed set of error variants of package `api` (`ApiError`,
`AuthError`, `ContentError`, `ApiTimeoutError`), each carrying its message. -/
inductive GoError where
  | ApiError (message : String)
  | AuthError (message : String)
  | ContentError (message : String)
  | ApiTimeoutError (message : String)
deriving DecidableEq, Repr

/-! ### Environment oracle -/

/-- What the outside world answers for one attempt: `client.Do` fails with an
error message, the body read fails after a delivered status, or a full
response arrives: HTTP status, raw body text, and the result of
`json.Unmarshal` on that body. -/
inductive AttemptResult where
  | doErr (msg : String)
  | readErr (status : Nat) (msg : String)
  | httpResp (status : Nat) (body : String) (parsed : Except String geminiResponse)

/-- The ambient world of one `GenerateResponse` call: possible `json.Marshal`
and `http.NewRequest` failures (deterministic, since the request payload is
attempt-invariant), and the per-attempt transport oracle. -/
structure Env where
  marshalErr : Option String
  newRequestErr : Option String
  attempt : Nat → AttemptResult

/-! ### The retry engine -/

/-- Backoff before retrying a timed-out attempt, in seconds:
`time.Duration(1<<uint(attempt)) * time.Second`. -/
def timeoutBackoff (n : Nat) : Nat := 1 <<< n

/-- Backoff before retrying a rate-limited attempt, in seconds:
`time.Duration(1<<uint(attempt)+1) * time.Second`; Go's `<<` binds tighter
than `+`, so this is `(1 << attempt) + 1`. -/
def rateLimitBackoff (n : Nat) : Nat := (1 <<< n) + 1

/-- The guard `geminiResp.PromptFeedback != nil &&
geminiResp.PromptFeedback.BlockReason != ""`. -/
def isBlocked (r : geminiResponse) : Bool :=
  match r.promptFeedback with
  | some pf => pf.blockReason != ""
  | none => false

/-- The block reason read off the feedback field (used only under
`isBlocked`). -/
def blockReasonOf (r : geminiResponse) : String :=
  match r.promptFeedback with
  | some pf => pf.blockReason
  | none => ""

/-- Outcome of one iteration of the attempt loop: a terminal return of the
function (text and error, the Go pair `(string, error)`), or a
`time.Sleep`-then-`continue` carrying the slept duration in seconds. -/
inductive StepOut where
  | done (text : String) (err : Option GoError)
  | again (sleepSec : Nat)
deriving DecidableEq, Repr

/-- One iteration of the loop body of `GenerateResponse`, at attempt index
`attempt` with retry budget `maxRetries` (a Go `int`, hence `Int`).  Mirrors
the source line by line: marshal, request creation, `client.Do` with
timeout-substring classification, body read, status 429 with backoff, non-200
terminal status, JSON parse, block-reason check, candidate/part emptiness
checks, and whitespace trim of the extracted text. -/
def runAttempt (env : Env) (attempt : Nat) (maxRetries : Int) : StepOut :=
  match env.marshalErr with
  | some e => .done "" (some (.ApiError ("Failed to marshal request: " ++ e)))
  | none =>
  match env.newRequestErr with
  | some e => .done "" (some (.ApiError ("Failed to create request: " ++ e)))
  | none =>
  match env.attempt attempt with
  | .doErr msg =>
    if goContains msg "timeout" || goContains msg "deadline exceeded" then
      if (attempt : Int) = maxRetries - 1 then
        .done "" (some (.ApiTimeoutError "API request timed out"))
      else
        .again (timeoutBackoff attempt)
    else
      .done "" (some (.ApiError ("Request failed: " ++ msg)))
  | .readErr _ msg =>
    .done "" (some (.ApiError ("Failed to read response: " ++ msg)))
  | .httpResp status body parsed =>
    if status = 429 then
      if (attempt : Int) = maxRetries - 1 then
        .done "" (some (.ApiError "Rate limit exceeded"))
      else
        .again (rateLimitBackoff attempt)
    else if status ≠ 200 then
      .done "" (some (.ApiError ("API returned status " ++ toString status ++ ": " ++ body)))
    else
      match parsed with
      | .error e => .done "" (some (.ApiError ("Failed to parse response: " ++ e)))
      | .ok r =>
        if isBlocked r then
          .done "" (some (.ContentError ("Blocked: " ++ blockReasonOf r)))
        else
          match r.candidates with
          | [] => .done "" (some (.ContentError "Empty response from API"))
          | c :: _ =>
            match c.content.parts with
            | [] => .done "" (some (.ContentError "No content parts in response"))
            | p :: _ =>
              if goTrimSpace p.text = "" then
                .done "" (some (.ContentError "Empty response from API"))
              else
                .done (goTrimSpace p.text) none

/-- Instrumented result of a call: the returned `(string, error)` pair, the
number of transport attempts performed, the backoff sleeps in order (seconds),
and whether the defensive post-loop return ("Max retries exceeded") was the
one that executed. -/
structure RunTrace where
  text : String
  err : Option GoError
  attemptsMade : Nat
  sleeps : List Nat
  exhausted : Bool
deriving DecidableEq, Repr

/-- The attempt loop from index `attempt` with `remaining` permitted
iterations (`remaining = maxRetries - attempt` at every call); when the budget
is exhausted the post-loop `return "", &ApiError{"Max retries exceeded"}`
fires. -/
def runFrom (env : Env) (maxRetries : Int) (attempt : Nat) : Nat → RunTrace
  | 0 =>
    { text := "", err := some (.ApiError "Max retries exceeded"),
      attemptsMade := 0, sleeps := [], exhausted := true }
  | remaining + 1 =>
    match runAttempt env attempt maxRetries with
    | .done t e =>
      { text := t, err := e, attemptsMade := 1, sleeps := [], exhausted := false }
    | .again d =>
      let rest := runFrom env maxRetries (attempt + 1) remaining
      { text := rest.text, err := rest.err, attemptsMade := rest.attemptsMade + 1,
        sleeps := d :: rest.sleeps, exhausted := rest.exhausted }

/-- `GenerateResponse`, instrumented: run the loop
`for attempt := 0; attempt < maxRetries; attempt++`, which iterates
`max maxRetries 0 = maxRetries.toNat` times. -/
def GenerateResponse (env : Env) (maxRetries : Int) : RunTrace :=
  runFrom env maxRetries 0 maxRetries.toNat

/-! ### Concrete worlds used to exercise the theorems -/

/-- A world where every transport call fails with a timeout. -/
def cEnvTimeout : Env := ⟨none, none, fun _ => .doErr "timeout"⟩

/-- A world where every transport call fails with a non-timeout error. -/
def cEnvConnFail : Env := ⟨none, none, fun _ => .doErr "connection refused"⟩

/-- The decoded single-candidate body of the spec's success example. -/
def cRespOk : geminiResponse := ⟨[⟨⟨[⟨"  ls -la  \n"⟩]⟩, "STOP", []⟩], none⟩

/-- A world delivering HTTP 200 with the success example body. -/
def cEnvOk : Env := ⟨none, none, fun _ => .httpResp 200 "raw body" (.ok cRespOk)⟩

/-- A world where every attempt is answered with HTTP 429. -/
def cEnv429 : Env := ⟨none, none, fun _ => .httpResp 429 "slow down" (.error "not json")⟩

/-- A world answering HTTP 500 with body "boom". -/
def cEnv500 : Env := ⟨none, none, fun _ => .httpResp 500 "boom" (.error "not json")⟩

/-- A decoded body blocked with reason SAFETY (and, deliberately, a non-empty
candidate list that must be ignored). -/
def cRespBlocked : geminiResponse :=
  ⟨[⟨⟨[⟨"ignored"⟩]⟩, "", []⟩], some ⟨"SAFETY"⟩⟩

/-- A world delivering the blocked body with HTTP 200. -/
def cEnvBlocked : Env := ⟨none, none, fun _ => .httpResp 200 "raw" (.ok cRespBlocked)⟩

/-- A decoded body with no candidates. -/
def cRespNoCand : geminiResponse := ⟨[], none⟩

/-- A decoded body whose only candidate has no parts. -/
def cRespNoParts : geminiResponse := ⟨[⟨⟨[]⟩, "", []⟩], none⟩

/-- A decoded body whose only part is whitespace. -/
def cRespWhitespace : geminiResponse := ⟨[⟨⟨[⟨" \t\n"⟩]⟩, "", []⟩], none⟩

/-- Worlds delivering each degenerate body with HTTP 200. -/
def cEnvNoCand : Env := ⟨none, none, fun _ => .httpResp 200 "raw" (.ok cRespNoCand)⟩

/-- World for the candidate-without-parts body. -/
def cEnvNoParts : Env := ⟨none, none, fun _ => .httpResp 200 "raw" (.ok cRespNoParts)⟩

/-- World for the whitespace-only body. -/
def cEnvWhitespace : Env := ⟨none, none, fun _ => .httpResp 200 "raw" (.ok cRespWhitespace)⟩

/-! ### Helper lemmas about trimming -/

/-- A left-trimmed list is untouched by a further left trim, even after a
right trim in between. -/
theorem dropWhile_rdropWhile_dropWhile (p : Char → Bool) (x : List Char) :
    List.dropWhile p (List.rdropWhile p (List.dropWhile p x)) =
      List.rdropWhile p (List.dropWhile p x) := by
  set m := List.dropWhile p x with hmdef
  rw [List.dropWhile_eq_self_iff]
  intro hl
  have hpre : List.rdropWhile p m <+: m := List.rdropWhile_prefix p m
  rw [List.get_eq_getElem, List.IsPrefix.getElem hpre hl]
  have hlm : 0 < m.length := lt_of_lt_of_le hl hpre.length_le
  have := List.dropWhile_get_zero_not (p := p) x (hmdef ▸ hlm)
  simpa [hmdef] using this

/-- Go `strings.TrimSpace` is idempotent. -/
theorem goTrimSpace_idem (s : String) : goTrimSpace (goTrimSpace s) = goTrimSpace s := by
  unfold goTrimSpace
  congr 1
  show List.rdropWhile goIsSpace
      (List.dropWhile goIsSpace
        (List.rdropWhile goIsSpace (List.dropWhile goIsSpace s.data))) = _
  rw [dropWhile_rdropWhile_dropWhile, List.rdropWhile_idempotent]

/-! ### Helper lemmas about the attempt step -/

/-- Every terminal return of the loop body pairs a non-empty trimmed text with
a nil error, or an empty text with a non-nil error. -/
theorem runAttempt_done_inv {env : Env} {a : Nat} {mr : Int} {t : String}
    {e : Option GoError} (h : runAttempt env a mr = .done t e) :
    (e = none → goTrimSpace t = t ∧ t ≠ "") ∧ (e.isSome → t = "") := by
  unfold runAttempt at h
  repeat' split at h
  all_goals cases h
  all_goals simp_all [goTrimSpace_idem]

/-- A loop iteration only continues (sleep + retry) when it is not the last
permitted attempt. -/
theorem runAttempt_again_not_last {env : Env} {a : Nat} {mr : Int} {d : Nat}
    (h : runAttempt env a mr = .again d) : (a : Int) ≠ mr - 1 := by
  unfold runAttempt at h
  repeat' split at h
  all_goals simp_all

/-! ### Helper lemmas about the attempt loop -/

/-- Unfolding the loop when the current iteration returns. -/
theorem runFrom_done {env : Env} {mr : Int} {a r : Nat} {t : String}
    {e : Option GoError} (h : runAttempt env a mr = .done t e) :
    runFrom env mr a (r + 1) =
      { text := t, err := e, attemptsMade := 1, sleeps := [], exhausted := false } := by
  simp [runFrom, h]

/-- Unfolding the loop when the current iteration sleeps and continues. -/
theorem runFrom_again {env : Env} {mr : Int} {a r d : Nat}
    (h : runAttempt env a mr = .again d) :
    runFrom env mr a (r + 1) =
      { text := (runFrom env mr (a + 1) r).text,
        err := (runFrom env mr (a + 1) r).err,
        attemptsMade := (runFrom env mr (a + 1) r).attemptsMade + 1,
        sleeps := d :: (runFrom env mr (a + 1) r).sleeps,
        exhausted := (runFrom env mr (a + 1) r).exhausted } := by
  simp [runFrom, h]

/-- The loop never reaches the defensive post-loop return as long as the
budget invariant `attempt + remaining = maxRetries` holds with at least one
permitted iteration left: the last permitted iteration always returns. -/
theorem runFrom_no_exhaust (env : Env) (mr : Int) :
    ∀ remaining attempt : Nat, 1 ≤ remaining → (attempt : Int) + remaining = mr →
      (runFrom env mr attempt remaining).exhausted = false := by
  intro remaining
  induction remaining with
  | zero => omega
  | succ r ih =>
    intro attempt _ hinv
    cases hstep : runAttempt env attempt mr with
    | done t e => rw [runFrom_done hstep]
    | again d =>
      have hne := runAttempt_again_not_last hstep
      have hr : 1 ≤ r := by omega
      rw [runFrom_again hstep]
      exact ih (attempt + 1) hr (by push_cast; omega)

/-- Along every run, a nil error goes exactly with a non-empty text, and any
returned text is a fixed point of trimming. -/
theorem runFrom_inv (env : Env) (mr : Int) (remaining : Nat) :
    ∀ attempt : Nat,
      ((runFrom env mr attempt remaining).err = none ↔
        (runFrom env mr attempt remaining).text ≠ "") ∧
      ((runFrom env mr attempt remaining).err = none →
        goTrimSpace (runFrom env mr attempt remaining).text =
          (runFrom env mr attempt remaining).text) := by
  induction remaining with
  | zero => intro attempt; simp [runFrom]
  | succ r ih =>
    intro attempt
    cases hstep : runAttempt env attempt mr with
    | done t e =>
      rw [runFrom_done hstep]
      have hinv := runAttempt_done_inv hstep
      cases e with
      | none =>
        exact ⟨by simpa using (hinv.1 rfl).2, fun _ => (hinv.1 rfl).1⟩
      | some er =>
        have ht : t = "" := hinv.2 (by simp)
        subst ht
        simp
    | again d =>
      rw [runFrom_again hstep]
      exact ih (attempt + 1)

/-- Step behaviour on a transport error classified as a timeout. -/
theorem runAttempt_timeout_step {env : Env} {n : Nat} {k : Int} {msg : String}
    (hm : env.marshalErr = none) (hq : env.newRequestErr = none)
    (ha : env.attempt n = .doErr msg)
    (ht : (goContains msg "timeout" || goContains msg "deadline exceeded") = true) :
    runAttempt env n k =
      if (n : Int) = k - 1 then
        .done "" (some (.ApiTimeoutError "API request timed out"))
      else
        .again (timeoutBackoff n) := by
  simp [runAttempt, hm, hq, ha, ht]

/-- Step behaviour on a delivered HTTP 429 status. -/
theorem runAttempt_429_step {env : Env} {n : Nat} {k : Int} {body : String}
    {parsed : Except String geminiResponse}
    (hm : env.marshalErr = none) (hq : env.newRequestErr = none)
    (ha : env.attempt n = .httpResp 429 body parsed) :
    runAttempt env n k =
      if (n : Int) = k - 1 then
        .done "" (some (.ApiError "Rate limit exceeded"))
      else
        .again (rateLimitBackoff n) := by
  simp [runAttempt, hm, hq, ha]

/-- The attempt loop under an all-timeouts oracle: starting at `attempt` with
`remaining = maxRetries - attempt ≥ 1` iterations left, it performs exactly
`remaining` further attempts, sleeps `timeoutBackoff attempt, …,
timeoutBackoff (maxRetries - 2)` and ends with the timeout error. -/
theorem runFrom_all_timeout (env : Env) (mr : Int)
    (hm : env.marshalErr = none) (hq : env.newRequestErr = none)
    (hall : ∀ n : Nat, ∃ msg, env.attempt n = .doErr msg ∧
      (goContains msg "timeout" || goContains msg "deadline exceeded") = true) :
    ∀ remaining attempt : Nat, 1 ≤ remaining → (attempt : Int) + remaining = mr →
      runFrom env mr attempt remaining =
        { text := "", err := some (.ApiTimeoutError "API request timed out"),
          attemptsMade := remaining,
          sleeps := (List.range' attempt (remaining - 1)).map timeoutBackoff,
          exhausted := false } := by
  intro remaining
  induction remaining with
  | zero => omega
  | succ r ih =>
    intro attempt _ hinv
    obtain ⟨msg, ha, ht⟩ := hall attempt
    have hstep := runAttempt_timeout_step (k := mr) hm hq ha ht
    by_cases hlast : (attempt : Int) = mr - 1
    · have hr : r = 0 := by omega
      subst hr
      rw [if_pos hlast] at hstep
      rw [runFrom_done hstep]
      simp
    · rw [if_neg hlast] at hstep
      have hr : 1 ≤ r := by omega
      obtain ⟨r', rfl⟩ : ∃ r', r = r' + 1 := ⟨r - 1, by omega⟩
      rw [runFrom_again hstep, ih (attempt + 1) hr (by push_cast; omega)]
      simp [List.range'_succ]

/-- A call whose very first iteration returns is terminal: one attempt, no
sleep, regardless of the size of the remaining budget. -/
theorem generateResponse_first_done {env : Env} {mr : Int} {t : String}
    {e : Option GoError} (hmr : 1 ≤ mr) (h : runAttempt env 0 mr = .done t e) :
    GenerateResponse env mr =
      { text := t, err := e, attemptsMade := 1, sleeps := [], exhausted := false } := by
  unfold GenerateResponse
  obtain ⟨k, hk⟩ : ∃ k, mr.toNat = k + 1 := ⟨mr.toNat - 1, by omega⟩
  rw [hk, runFrom_done h]

/-- Step behaviour on a transport error that is not classified as timeout. -/
theorem runAttempt_connfail_step {env : Env} {n : Nat} {k : Int} {msg : String}
    (hm : env.marshalErr = none) (hq : env.newRequestErr = none)
    (ha : env.attempt n = .doErr msg)
    (ht : goContains msg "timeout" = false)
    (hd : goContains msg "deadline exceeded" = false) :
    runAttempt env n k = .done "" (some (.ApiError ("Request failed: " ++ msg))) := by
  simp [runAttempt, hm, hq, ha, ht, hd]

/-! ### Claim theorems -/

/-- C1: for every `maxAttempts ≥ 1`, if every attempt's transport call fails
with a timeout error, `GenerateResponse` returns the Timeout failure
"API request timed out" after exactly `maxAttempts` attempts, sleeping
`2^0, 2^1, …, 2^(maxAttempts-2)` seconds between consecutive attempts and
performing no backoff after the final attempt. -/
theorem generateResponse_all_timeouts (env : Env) (maxRetries : Int)
    (hmr : 1 ≤ maxRetries) (hm : env.marshalErr = none) (hq : env.newRequestErr = none)
    (hall : ∀ n : Nat, ∃ msg, env.attempt n = .doErr msg ∧
      (goContains msg "timeout" || goContains msg "deadline exceeded") = true) :
    GenerateResponse env maxRetries =
      { text := "", err := some (.ApiTimeoutError "API request timed out"),
        attemptsMade := maxRetries.toNat,
        sleeps := (List.range (maxRetries.toNat - 1)).map fun n => 2 ^ n,
        exhausted := false } := by
  unfold GenerateResponse
  rw [runFrom_all_timeout env maxRetries hm hq hall maxRetries.toNat 0 (by omega) (by omega)]
  simp [List.range_eq_range', timeoutBackoff, Nat.shiftLeft_eq]

/-- C1 witness: three timeouts at budget 3 give the timeout failure after
three attempts with sleeps of 1 and 2 seconds. -/
theorem generateResponse_all_timeouts_witness :
    GenerateResponse cEnvTimeout 3 =
      { text := "", err := some (.ApiTimeoutError "API request timed out"),
        attemptsMade := 3, sleeps := [1, 2], exhausted := false } := by
  rw [generateResponse_all_timeouts cEnvTimeout 3 (by norm_num) rfl rfl
    (fun n => ⟨"timeout", rfl, by decide⟩)]
  decide

/-- C2: on an HTTP 429 response at attempt index `n`, if `n` is not the last
attempt the engine sleeps `2^n + 1` seconds — strictly longer than the
timeout backoff `2^n` for the same index — and retries at index `n + 1`;
if `n` is the last attempt it returns the Api failure
"Rate limit exceeded". -/
theorem generateResponse_rate_limited (env : Env) (n : Nat) (maxRetries : Int)
    (body : String) (parsed : Except String geminiResponse) (r : Nat)
    (hm : env.marshalErr = none) (hq : env.newRequestErr = none)
    (ha : env.attempt n = .httpResp 429 body parsed) :
    ((n : Int) ≠ maxRetries - 1 →
      runAttempt env n maxRetries = .again (rateLimitBackoff n) ∧
      rateLimitBackoff n = 2 ^ n + 1 ∧
      timeoutBackoff n = 2 ^ n ∧
      timeoutBackoff n < rateLimitBackoff n ∧
      runFrom env maxRetries n (r + 1) =
        { text := (runFrom env maxRetries (n + 1) r).text,
          err := (runFrom env maxRetries (n + 1) r).err,
          attemptsMade := (runFrom env maxRetries (n + 1) r).attemptsMade + 1,
          sleeps := rateLimitBackoff n :: (runFrom env maxRetries (n + 1) r).sleeps,
          exhausted := (runFrom env maxRetries (n + 1) r).exhausted }) ∧
    ((n : Int) = maxRetries - 1 →
      runFrom env maxRetries n (r + 1) =
        { text := "", err := some (.ApiError "Rate limit exceeded"),
          attemptsMade := 1, sleeps := [], exhausted := false }) := by
  have hstep := runAttempt_429_step (k := maxRetries) hm hq ha
  constructor
  · intro hne
    rw [if_neg hne] at hstep
    refine ⟨hstep, by simp [rateLimitBackoff, Nat.shiftLeft_eq],
      by simp [timeoutBackoff, Nat.shiftLeft_eq],
      by simp [timeoutBackoff, rateLimitBackoff], runFrom_again hstep⟩
  · intro hlast
    rw [if_pos hlast] at hstep
    exact runFrom_done hstep

/-- C2 witness: a 429 at index 0 with budget 3 sleeps 2 seconds (vs timeout
backoff 1) and retries; a 429 at the final index returns the rate-limit
failure. -/
theorem generateResponse_rate_limited_witness :
    ((0 : Int) ≠ 3 - 1 →
      runAttempt cEnv429 0 3 = .again (rateLimitBackoff 0) ∧
      rateLimitBackoff 0 = 2 ^ 0 + 1 ∧
      timeoutBackoff 0 = 2 ^ 0 ∧
      timeoutBackoff 0 < rateLimitBackoff 0 ∧
      runFrom cEnv429 3 0 (2 + 1) =
        { text := (runFrom cEnv429 3 (0 + 1) 2).text,
          err := (runFrom cEnv429 3 (0 + 1) 2).err,
          attemptsMade := (runFrom cEnv429 3 (0 + 1) 2).attemptsMade + 1,
          sleeps := rateLimitBackoff 0 :: (runFrom cEnv429 3 (0 + 1) 2).sleeps,
          exhausted := (runFrom cEnv429 3 (0 + 1) 2).exhausted }) ∧
    ((0 : Int) = 3 - 1 →
      runFrom cEnv429 3 0 (2 + 1) =
        { text := "", err := some (.ApiError "Rate limit exceeded"),
          attemptsMade := 1, sleeps := [], exhausted := false }) :=
  generateResponse_rate_limited cEnv429 0 3 "slow down" (.error "not json") 2 rfl rfl rfl

/-- C8: a transport-level connection failure whose error text contains
neither "timeout" nor "deadline exceeded" is never retried: at any attempt
index the engine immediately returns an Api failure carrying the error
detail, with no backoff sleep and no further attempt. -/
theorem generateResponse_connection_failure (env : Env) (n : Nat) (maxRetries : Int)
    (msg : String) (r : Nat)
    (hm : env.marshalErr = none) (hq : env.newRequestErr = none)
    (ha : env.attempt n = .doErr msg)
    (ht : goContains msg "timeout" = false)
    (hd : goContains msg "deadline exceeded" = false) :
    runAttempt env n maxRetries = .done "" (some (.ApiError ("Request failed: " ++ msg))) ∧
    runFrom env maxRetries n (r + 1) =
      { text := "", err := some (.ApiError ("Request failed: " ++ msg)),
        attemptsMade := 1, sleeps := [], exhausted := false } := by
  have hstep := runAttempt_connfail_step (k := maxRetries) hm hq ha ht hd
  exact ⟨hstep, runFrom_done hstep⟩

/-- C8 witness: "connection refused" at index 0 of a budget of 5 returns
immediately with the Api failure and an untouched backoff trace. -/
theorem generateResponse_connection_failure_witness :
    runAttempt cEnvConnFail 0 5 =
      .done "" (some (.ApiError ("Request failed: " ++ "connection refused"))) ∧
    runFrom cEnvConnFail 5 0 (4 + 1) =
      { text := "", err := some (.ApiError ("Request failed: " ++ "connection refused")),
        attemptsMade := 1, sleeps := [], exhausted := false } :=
  generateResponse_connection_failure cEnvConnFail 0 5 "connection refused" 4
    rfl rfl rfl (by decide) (by decide)

/-- C9: for every world and budget, the call returns exactly one of answer or
failure: the error is nil precisely when the text is non-empty, and a text
returned with a nil error is a fixed point of whitespace trimming (hence not
whitespace-only). -/
theorem generateResponse_outcome_invariant (env : Env) (maxRetries : Int) :
    ((GenerateResponse env maxRetries).err = none ↔
      (GenerateResponse env maxRetries).text ≠ "") ∧
    ((GenerateResponse env maxRetries).err = none →
      goTrimSpace (GenerateResponse env maxRetries).text =
        (GenerateResponse env maxRetries).text) := by
  unfold GenerateResponse
  exact runFrom_inv env maxRetries maxRetries.toNat 0

/-- C9 witness: the invariant instantiated at the success world. -/
theorem generateResponse_outcome_invariant_witness :
    ((GenerateResponse cEnvOk 3).err = none ↔ (GenerateResponse cEnvOk 3).text ≠ "") ∧
    ((GenerateResponse cEnvOk 3).err = none →
      goTrimSpace (GenerateResponse cEnvOk 3).text = (GenerateResponse cEnvOk 3).text) :=
  generateResponse_outcome_invariant cEnvOk 3

/-- C10: a budget below one performs zero attempts and zero sleeps and
returns the Api failure "Max retries exceeded" through the post-loop
defensive return; for every budget of at least one, that defensive return
never executes. -/
theorem generateResponse_budget (env : Env) (maxRetries : Int) :
    (maxRetries < 1 →
      GenerateResponse env maxRetries =
        { text := "", err := some (.ApiError "Max retries exceeded"),
          attemptsMade := 0, sleeps := [], exhausted := true }) ∧
    (1 ≤ maxRetries → (GenerateResponse env maxRetries).exhausted = false) := by
  constructor
  · intro h
    have h0 : maxRetries.toNat = 0 := by omega
    unfold GenerateResponse
    rw [h0]
    rfl
  · intro h
    exact runFrom_no_exhaust env maxRetries maxRetries.toNat 0 (by omega) (by omega)

/-- C10 witness: budget 0 exhausts immediately with zero attempts; budget 3
never reaches the defensive return. -/
theorem generateResponse_budget_witness :
    GenerateResponse cEnvConnFail 0 =
      { text := "", err := some (.ApiError "Max retries exceeded"),
        attemptsMade := 0, sleeps := [], exhausted := true } ∧
    (GenerateResponse cEnvTimeout 3).exhausted = false :=
  ⟨(generateResponse_budget cEnvConnFail 0).1 (by norm_num),
   (generateResponse_budget cEnvTimeout 3).2 (by norm_num)⟩

/-- C3: an HTTP 200 body that parses with no block reason, at least one
candidate, at least one part, and a first part whose trimmed text is
non-empty yields exactly the trimmed text of the first candidate's first
part, on the first attempt, with all later candidates and parts ignored. -/
theorem generateResponse_success_answer (env : Env) (maxRetries : Int)
    (body : String) (r : geminiResponse) (c : candidate) (cs : List candidate)
    (p : part) (ps : List part)
    (hmr : 1 ≤ maxRetries) (hm : env.marshalErr = none) (hq : env.newRequestErr = none)
    (ha : env.attempt 0 = .httpResp 200 body (.ok r))
    (hb : isBlocked r = false)
    (hc : r.candidates = c :: cs) (hp : c.content.parts = p :: ps)
    (hne : goTrimSpace p.text ≠ "") :
    GenerateResponse env maxRetries =
      { text := goTrimSpace p.text, err := none, attemptsMade := 1,
        sleeps := [], exhausted := false } := by
  apply generateResponse_first_done hmr
  simp [runAttempt, hm, hq, ha, hb, hc, hp, hne]

/-- C3 witness: the spec's example body yields the answer "ls -la" in one
attempt. -/
theorem generateResponse_success_answer_witness :
    GenerateResponse cEnvOk 3 =
      { text := "ls -la", err := none, attemptsMade := 1,
        sleeps := [], exhausted := false } := by
  rw [generateResponse_success_answer cEnvOk 3 "raw body" cRespOk
    ⟨⟨[⟨"  ls -la  \n"⟩]⟩, "STOP", []⟩ [] ⟨"  ls -la  \n"⟩ []
    (by norm_num) rfl rfl rfl rfl rfl rfl (by decide)]
  decide

/-- C4 counterexample: at a 500 response with body "boom", the engine's
failure message is "API returned status 500: boom", not the
"status 500: boom" the claim states. -/
theorem generateResponse_non2xx_message_counterexample :
    (GenerateResponse cEnv500 3).err =
      some (.ApiError "API returned status 500: boom") ∧
    (GenerateResponse cEnv500 3).err ≠ some (.ApiError "status 500: boom") := by
  decide

/-- C4 (amended): every HTTP status outside the success range and distinct
from 429 terminates on the first attempt regardless of the budget, with an
Api failure whose message is "API returned status <code>: <body>", carrying
the raw body text; no backoff sleep and no further attempt occurs. -/
theorem generateResponse_non2xx_terminal (env : Env) (maxRetries : Int)
    (status : Nat) (body : String) (parsed : Except String geminiResponse)
    (hmr : 1 ≤ maxRetries) (hm : env.marshalErr = none) (hq : env.newRequestErr = none)
    (hs : ¬(200 ≤ status ∧ status < 300)) (h429 : status ≠ 429)
    (ha : env.attempt 0 = .httpResp status body parsed) :
    GenerateResponse env maxRetries =
      { text := "",
        err := some (.ApiError ("API returned status " ++ toString status ++ ": " ++ body)),
        attemptsMade := 1, sleeps := [], exhausted := false } := by
  have h200 : status ≠ 200 := by omega
  apply generateResponse_first_done hmr
  simp [runAttempt, hm, hq, ha, h429, h200]

/-- C4 witness: status 500 with body "boom" and budget 3 is terminal on the
first attempt with the full message. -/
theorem generateResponse_non2xx_terminal_witness :
    GenerateResponse cEnv500 3 =
      { text := "",
        err := some (.ApiError ("API returned status " ++ toString 500 ++ ": " ++ "boom")),
        attemptsMade := 1, sleeps := [], exhausted := false } :=
  generateResponse_non2xx_terminal cEnv500 3 500 "boom" (.error "not json")
    (by norm_num) rfl rfl (by omega) (by omega) rfl

/-- C5: a parsed body carrying a non-empty block reason returns
`Blocked: <reason>` as a Content failure immediately, with no retry, even
when attempts remain; the candidate list is arbitrary, showing the check
runs before the candidate-emptiness checks. -/
theorem generateResponse_blocked (env : Env) (maxRetries : Int)
    (body : String) (r : geminiResponse) (pf : promptFeedback)
    (hmr : 1 ≤ maxRetries) (hm : env.marshalErr = none) (hq : env.newRequestErr = none)
    (ha : env.attempt 0 = .httpResp 200 body (.ok r))
    (hpf : r.promptFeedback = some pf) (hbr : pf.blockReason ≠ "") :
    GenerateResponse env maxRetries =
      { text := "", err := some (.ContentError ("Blocked: " ++ pf.blockReason)),
        attemptsMade := 1, sleeps := [], exhausted := false } := by
  apply generateResponse_first_done hmr
  simp [runAttempt, hm, hq, ha, isBlocked, blockReasonOf, hpf, hbr]

/-- C5 witness: blockReason SAFETY with a non-empty candidate list and budget
3 yields "Blocked: SAFETY" in one attempt. -/
theorem generateResponse_blocked_witness :
    GenerateResponse cEnvBlocked 3 =
      { text := "", err := some (.ContentError ("Blocked: " ++ "SAFETY")),
        attemptsMade := 1, sleeps := [], exhausted := false } :=
  generateResponse_blocked cEnvBlocked 3 "raw" cRespBlocked ⟨"SAFETY"⟩
    (by norm_num) rfl rfl rfl rfl (by decide)

/-- C6: for a parsed 200 body with no block reason, an empty candidate list
yields "Empty response from API"; otherwise an empty part list in the first
candidate yields "No content parts in response"; otherwise a first-part text
that trims to empty yields "Empty response from API" — in that order, each
terminal on the first attempt. -/
theorem generateResponse_content_checks (env : Env) (maxRetries : Int)
    (body : String) (r : geminiResponse)
    (hmr : 1 ≤ maxRetries) (hm : env.marshalErr = none) (hq : env.newRequestErr = none)
    (ha : env.attempt 0 = .httpResp 200 body (.ok r))
    (hb : isBlocked r = false) :
    (r.candidates = [] →
      GenerateResponse env maxRetries =
        { text := "", err := some (.ContentError "Empty response from API"),
          attemptsMade := 1, sleeps := [], exhausted := false }) ∧
    (∀ c cs, r.candidates = c :: cs → c.content.parts = [] →
      GenerateResponse env maxRetries =
        { text := "", err := some (.ContentError "No content parts in response"),
          attemptsMade := 1, sleeps := [], exhausted := false }) ∧
    (∀ c cs p ps, r.candidates = c :: cs → c.content.parts = p :: ps →
      goTrimSpace p.text = "" →
      GenerateResponse env maxRetries =
        { text := "", err := some (.ContentError "Empty response from API"),
          attemptsMade := 1, sleeps := [], exhausted := false }) := by
  refine ⟨fun hc => ?_, fun c cs hc hp => ?_, fun c cs p ps hc hp hws => ?_⟩ <;>
    apply generateResponse_first_done hmr
  · simp [runAttempt, hm, hq, ha, hb, hc]
  · simp [runAttempt, hm, hq, ha, hb, hc, hp]
  · simp [runAttempt, hm, hq, ha, hb, hc, hp, hws]

/-- C6 witness: the three degenerate bodies at budget 3, each terminal in one
attempt with its message. -/
theorem generateResponse_content_checks_witness :
    GenerateResponse cEnvNoCand 3 =
      { text := "", err := some (.ContentError "Empty response from API"),
        attemptsMade := 1, sleeps := [], exhausted := false } ∧
    GenerateResponse cEnvNoParts 3 =
      { text := "", err := some (.ContentError "No content parts in response"),
        attemptsMade := 1, sleeps := [], exhausted := false } ∧
    GenerateResponse cEnvWhitespace 3 =
      { text := "", err := some (.ContentError "Empty response from API"),
        attemptsMade := 1, sleeps := [], exhausted := false } :=
  ⟨(generateResponse_content_checks cEnvNoCand 3 "raw" cRespNoCand
      (by norm_num) rfl rfl rfl rfl).1 rfl,
   (generateResponse_content_checks cEnvNoParts 3 "raw" cRespNoParts
      (by norm_num) rfl rfl rfl rfl).2.1 ⟨⟨[]⟩, "", []⟩ [] rfl rfl,
   (generateResponse_content_checks cEnvWhitespace 3 "raw" cRespWhitespace
      (by norm_num) rfl rfl rfl rfl).2.2 ⟨⟨[⟨" \t\n"⟩]⟩, "", []⟩ [] ⟨" \t\n"⟩ []
      rfl rfl (by decide)⟩

/-- C7: the configured model name "models/gemini-2.5-flash" resolves to the
same outbound identifier — and hence the same request URL for any key — as
"gemini-2.5-flash", and an unset configuration resolves to the fixed
default. -/
theorem resolveModelName_qualifier (apiKey : String) :
    resolveModelName "models/gemini-2.5-flash" = resolveModelName "gemini-2.5-flash" ∧
    requestURL "models/gemini-2.5-flash" apiKey = requestURL "gemini-2.5-flash" apiKey ∧
    resolveModelName "" = defaultModel := by
  refine ⟨by decide, ?_, by decide⟩
  unfold requestURL
  rw [show resolveModelName "models/gemini-2.5-flash" = resolveModelName "gemini-2.5-flash"
    from by decide]

/-- C7 witness: the identifier and URL coincidence at a concrete key. -/
theorem resolveModelName_qualifier_witness :
    resolveModelName "models/gemini-2.5-flash" = resolveModelName "gemini-2.5-flash" ∧
    requestURL "models/gemini-2.5-flash" "KEY" = requestURL "gemini-2.5-flash" "KEY" ∧
    resolveModelName "" = defaultModel :=
  resolveModelName_qualifier "KEY"

end HowApi
